import Mathlib

/-!
Verification development for the `pysign` artifact-signature verifier.

The definitions below are a shallow embedding of the verification engine:

* `verifySetStore` / `verifySetPure` embed `sigstore/_internal/set.py`
  (`verify_set`), with Python dict aliasing made explicit through a small
  store of dictionaries so that the `.copy()` on the entry body is visible.
* `packDigitallySigned` / `verifySct` embed `sigstore/_internal/sct.py`
  (`_pack_digitally_signed` and `verify_sct`), with `struct.pack` modelled
  byte-for-byte including its range checks.
* `verify` embeds the orchestrator in `sigstore/_verify.py`, with the
  external cryptographic primitives (OpenSSL path validation, ECDSA
  verification, JSON canonicalization, base64 decoding, the Merkle
  inclusion check that lives in an external module) abstracted as oracle
  parameters, exactly at the call boundaries the source uses.
* `Policy.verify` embeds `sigstore/_verify/policy.py`.

Bytes are modelled as `List Nat` with each element a byte value; machine
integers are `Nat` with explicit `% 256` and range checks where the source's
packing routines have them.
-/

/-- An X.509 certificate as consumed by the verifier: the parsed-certificate
attributes that `sigstore/_verify.py` reads.  The certificate itself is an
opaque value produced by the external `cryptography` library; we keep just
the fields the verifier inspects, plus an opaque public-key identifier. -/
structure Certificate where
  notValidBefore : Nat
  keyUsageDigitalSignature : Bool
  extKeyUsageCodeSigning : Bool
  rfc822Names : List String
  pubKey : Nat
  deriving DecidableEq

/-- The OpenSSL `X509Store` as used by `verify`: a bag of trusted
certificates plus an optional fixed validation time. -/
structure X509Store where
  certs : List Certificate
  time : Option Nat
  deriving DecidableEq

/-- `X509Store()` -/
def X509Store.new : X509Store := { certs := [], time := none }

/-- `store.add_cert(cert)` -/
def X509Store.addCert (s : X509Store) (c : Certificate) : X509Store :=
  { s with certs := s.certs ++ [c] }

/-- `store.set_time(t)` -/
def X509Store.setTime (s : X509Store) (t : Nat) : X509Store :=
  { s with time := some t }

/-- `X509StoreContext(store, cert)` -/
structure X509StoreContext where
  store : X509Store
  cert : Certificate
  deriving DecidableEq

/-- The store built by `verify` (`sigstore/_verify.py` lines 86-88): an empty
store, the Fulcio root added, and the validation time set to the signing
certificate's own `not_valid_before` instant. -/
def chainStore (root cert : Certificate) : X509Store :=
  ((X509Store.new).addCert root).setTime cert.notValidBefore

/-- A JSON value, as produced by parsing a Rekor entry body. -/
inductive JValue where
  | null
  | bool (b : Bool)
  | num (n : Int)
  | str (s : String)
  | arr (elems : List JValue)
  | obj (fields : List (String × JValue))

/-- A Python dict holding JSON data: an insertion-ordered association list.
Dicts decoded from JSON have pairwise-distinct keys. -/
abbrev Dict := List (String × JValue)

/-- `k in d` for a dict. -/
def dictHas (d : Dict) (k : String) : Bool :=
  d.any (fun p => p.1 == k)

/-- `d[k]`, as an `Option` (Python raises `KeyError` on `none`). -/
def dictGet (d : Dict) (k : String) : Option JValue :=
  (d.find? (fun p => p.1 == k)).map (fun p => p.2)

/-- `del d[k]`: `none` models the `KeyError` Python raises when the key is
absent; otherwise the binding for `k` is removed. -/
def dictDel (d : Dict) (k : String) : Option Dict :=
  if dictHas d k then some (d.filter (fun p => !(p.1 == k))) else none

/-- A heap of dict objects, so that Python's object identity and in-place
mutation (`del`) versus copying (`.copy()`) are explicit. -/
structure Store where
  dicts : List Dict

/-- Dereference a dict object. -/
def Store.get (s : Store) (r : Nat) : Dict :=
  s.dicts.getD r []

/-- Overwrite the dict object behind reference `r`. -/
def Store.set (s : Store) (r : Nat) (d : Dict) : Store :=
  ⟨s.dicts.set r d⟩

/-- Allocate a fresh dict object (this is what `.copy()` does) and return
its reference. -/
def Store.alloc (s : Store) (d : Dict) : Store × Nat :=
  (⟨s.dicts ++ [d]⟩, s.dicts.length)

/-- A Rekor log entry as consumed by the verifier: its raw JSON body
(`entry.raw_data`) and its `verification` mapping, which carries the
`signedEntryTimestamp` and the inclusion proof. -/
structure RekorEntry where
  rawData : Dict
  verification : Dict

/-- The external collaborators of the verification engine, abstracted at
precisely the call boundaries the source uses.  Each field stands for a
primitive the source imports from a trusted library (OpenSSL,
`cryptography`, `jcs`, `base64`) or from a module outside the engine
(`verify_merkle_inclusion`). -/
structure CryptoOracles where
  /-- `store_ctx.verify_certificate()` succeeding (OpenSSL path validation). -/
  pathValid : X509StoreContext → Bool
  /-- `signing_key.verify(sig, data, ec.ECDSA(hashes.SHA256()))` succeeding,
  for the public key of the signing certificate. -/
  keyVerify : Nat → List Nat → List Nat → Bool
  /-- `verify_merkle_inclusion(proof, entry)` not raising
  `InvalidInclusionProofError` (the Merkle verifier is an external module). -/
  merkleOk : RekorEntry → Bool
  /-- `jcs.canonicalize(raw_data)` (RFC 8785 canonicalization). -/
  canonicalize : Dict → List Nat
  /-- `base64.b64decode(s)`. -/
  b64decode : String → List Nat
  /-- `rekor_key.verify(sig, data, ec.ECDSA(hashes.SHA256()))` succeeding,
  for the fixed Rekor log public key. -/
  rekorVerify : List Nat → List Nat → Bool

/-- The ways `verify_set` can terminate abnormally: `keyError` models the
`KeyError` raised by `del`/indexing on a missing key, `attributeError` a
non-string `signedEntryTimestamp`, and `invalidSet` the `InvalidSetError`
raised on an ECDSA mismatch. -/
inductive SetVerifyError where
  | keyError
  | attributeError
  | invalidSet
  deriving DecidableEq

/-- `verify_set` from `sigstore/_internal/set.py`, with the entry body given
as a reference into a dict store so that the `.copy()` is explicit:
copy the body, `del` the `verification` and `attestation` keys from the
copy, canonicalize what remains, base64-decode
`entry.verification["signedEntryTimestamp"]`, and check the ECDSA signature
over the canonical bytes with the Rekor key.  Returns the outcome together
with the final store. -/
def verifySetStore (O : CryptoOracles) (st : Store) (rawDataRef : Nat)
    (verification : Dict) : Except SetVerifyError Unit × Store :=
  -- raw_data = entry.raw_data.copy()
  let p := st.alloc (st.get rawDataRef)
  let st := p.1
  let r := p.2
  -- del raw_data["verification"]
  match dictDel (st.get r) "verification" with
  | none => (.error .keyError, st)
  | some d =>
    let st := st.set r d
    -- del raw_data["attestation"]
    match dictDel (st.get r) "attestation" with
    | none => (.error .keyError, st)
    | some d2 =>
      let st := st.set r d2
      -- canon_data = jcs.canonicalize(raw_data)
      let canonData := O.canonicalize (st.get r)
      -- signed_entry_ts = base64.b64decode(entry.verification["signedEntryTimestamp"].encode())
      match dictGet verification "signedEntryTimestamp" with
      | none => (.error .keyError, st)
      | some (.str s) =>
        let signedEntryTs := O.b64decode s
        -- rekor_key.verify(...); InvalidSignature is re-raised as InvalidSetError
        if O.rekorVerify signedEntryTs canonData then (.ok (), st)
        else (.error .invalidSet, st)
      | some _ => (.error .attributeError, st)

/-- The observable outcome of `verify_set` on an entry value: run the
store-level embedding on a one-object heap holding the entry body. -/
def verifySetPure (O : CryptoOracles) (e : RekorEntry) : Except SetVerifyError Unit :=
  (verifySetStore O ⟨[e.rawData]⟩ 0 e.verification).1

/-- The body of a log entry with the `verification` and `attestation`
fields removed, as the SET protocol requires the signed payload to be. -/
def withoutVerificationFields (d : Dict) : Dict :=
  d.filter (fun p => !(p.1 == "verification") && !(p.1 == "attestation"))

/-- A Fulcio signed certificate timestamp: the fields of `sct.struct` that
`_pack_digitally_signed` reads, plus the decoded signature bytes. -/
structure FulcioSCT where
  sctVersion : Nat
  timestamp : Nat
  extensions : List Nat
  signature : List Nat
  deriving DecidableEq

/-- How the SCT routines can fail: `invalidSct msg` models
`InvalidSctError(msg)`, and `structError` models the `struct.error` that
`struct.pack` raises when a value does not fit its format code. -/
inductive SctExn where
  | invalidSct (msg : String)
  | structError
  deriving DecidableEq

/-- Big-endian base-256 digits of `n`, `width` bytes wide (the byte layout
`struct.pack` produces for an in-range unsigned value). -/
def bytesBE (width n : Nat) : List Nat :=
  (List.range width).map (fun i => n / 256 ^ (width - 1 - i) % 256)

/-- `struct.pack` of a single unsigned big-endian field of `width` bytes
(`"!B"`, `"!I"`, `"!Q"`): `struct.error` when the value is out of range. -/
def structPackU (width n : Nat) : Except SctExn (List Nat) :=
  if n < 256 ^ width then .ok (bytesBE width n) else .error .structError

/-- `struct.pack("!h", n)` for the nonnegative values the source passes to
its `h` fields (the signed-short range check keeps `n ≤ 32767`; the byte
layout for a nonnegative in-range value is the unsigned one). -/
def structPackH (n : Nat) : Except SctExn (List Nat) :=
  if n ≤ 32767 then .ok (bytesBE 2 n) else .error .structError

/-- The message of the oversized-certificate `InvalidSctError`. -/
def oversizedMsg (n : Nat) : String :=
  s!"Unexpectedly large certificate length: {n}"

/-- `_pack_digitally_signed` from `sigstore/_internal/sct.py`: split the DER
length into `unused, len1, len2, len3` via `struct.pack("!I", ...)` /
`struct.unpack("!4B", ...)`, raise `InvalidSctError` when the high byte is
nonzero, then `struct.pack("!BBQhBBB%ssh", version, 0, timestamp, 0, len1,
len2, len3, cert_der, len(extensions))`.  Note the format string ends at the
extensions length: the extensions blob itself is never appended. -/
def packDigitallySigned (sct : FulcioSCT) (certDer : List Nat) :
    Except SctExn (List Nat) := do
  let lenBytes ← structPackU 4 certDer.length
  let unused := lenBytes.getD 0 0
  let len1 := lenBytes.getD 1 0
  let len2 := lenBytes.getD 2 0
  let len3 := lenBytes.getD 3 0
  if unused ≠ 0 then
    throw (.invalidSct (oversizedMsg certDer.length))
  let b1 ← structPackU 1 sct.sctVersion
  let b2 ← structPackU 1 0
  let q ← structPackU 8 sct.timestamp
  let h1 ← structPackH 0
  let l1 ← structPackU 1 len1
  let l2 ← structPackU 1 len2
  let l3 ← structPackU 1 len3
  let h2 ← structPackH sct.extensions.length
  return b1 ++ b2 ++ q ++ h1 ++ l1 ++ l2 ++ l3 ++ certDer ++ h2

/-- `verify_sct` from `sigstore/_internal/sct.py`: assemble the digitally
signed payload and verify `sct.signature` over it.  The source's comment
speaks of stripping a 4-byte prefix from the signature, but the call passes
`sct.signature` unmodified; a `cryptography` `InvalidSignature` (raised both
for a wrong signature and for a malformed signature encoding) is re-raised
as a bare `InvalidSctError`. -/
def verifySct (ecdsaVerify : List Nat → List Nat → Bool) (sct : FulcioSCT)
    (certDer : List Nat) : Except SctExn Unit := do
  let digitallySigned ← packDigitallySigned sct certDer
  if ecdsaVerify sct.signature digitallySigned then
    return ()
  else
    throw (.invalidSct "")

/-- The digitally-signed payload as claim C2 describes it: version byte,
zero signature-type byte, 8-byte timestamp, 2-byte zero entry type, 3-byte
DER length, the DER bytes, the 2-byte extensions length, and then the
extensions blob itself whenever it is non-empty. -/
def claimDigitallySigned (sct : FulcioSCT) (certDer : List Nat) : List Nat :=
  bytesBE 1 sct.sctVersion ++ bytesBE 1 0 ++ bytesBE 8 sct.timestamp ++
    bytesBE 2 0 ++ bytesBE 3 certDer.length ++ certDer ++
    bytesBE 2 sct.extensions.length ++
    (if sct.extensions.isEmpty then [] else sct.extensions)

/-- The digitally-signed payload as the code actually lays it out: the same
fields, but with nothing after the 2-byte extensions length. -/
def amendedDigitallySigned (sct : FulcioSCT) (certDer : List Nat) : List Nat :=
  bytesBE 1 sct.sctVersion ++ bytesBE 1 0 ++ bytesBE 8 sct.timestamp ++
    bytesBE 2 0 ++ bytesBE 3 certDer.length ++ certDer ++
    bytesBE 2 sct.extensions.length

/-- How the orchestrator `verify` can terminate with an uncaught exception:
the `X509StoreContextError` from `store_ctx.verify_certificate()`, the
`InvalidSignature` from the raw artifact-signature check, and anything
`verify_set` raises (nothing in `verify` catches those three). -/
inductive VerifyExn where
  | certificateChain
  | invalidSignature
  | setFailure (e : SetVerifyError)
  deriving DecidableEq

/-- The message path on which `verify` returns `None` normally: full
success, or one of the checks whose failure is reported via `output(...)`
followed by `return None`. -/
inductive VerifyResult where
  | ok
  | keyUsageFail
  | extendedKeyUsageFail
  | emailFail
  | noValidEntries
  deriving DecidableEq

/-- The optional signer-identity check: when a `cert_email` is supplied it
must occur among the certificate's SAN RFC-822 names. -/
def emailOk (cert : Certificate) : Option String → Bool
  | none => true
  | some email => cert.rfc822Names.contains email

/-- The per-entry loop of `verify` (`sigstore/_verify.py` lines 137-156):
an entry whose inclusion proof fails is skipped with `continue`; otherwise
`verify_set(entry)` runs with no surrounding `try`, so any failure there
propagates out of the whole call; an entry passing both sets
`valid_sig_exists = True`, and the loop keeps going over later entries. -/
def rekorLoop (O : CryptoOracles) : List RekorEntry → Bool → Except VerifyExn Bool
  | [], valid => .ok valid
  | e :: rest, valid =>
    if O.merkleOk e then
      match verifySetPure O e with
      | .error se => .error (.setFailure se)
      | .ok () => rekorLoop O rest true
    else
      rekorLoop O rest valid

/-- The orchestrator `verify` from `sigstore/_verify.py`.  The artifact
bytes, parsed certificate, decoded signature, optional expected email and
the Rekor entries looked up for the artifact are the inputs; file reading,
hashing for the Rekor query and the Rekor HTTP client are the external I/O
that produced them.  `Except.error` is an exception escaping the call;
`Except.ok r` is the function returning `None` after reporting `r`. -/
def verify (O : CryptoOracles) (cert root : Certificate)
    (artifactContents artifactSignature : List Nat)
    (certEmail : Option String) (entries : List RekorEntry) :
    Except VerifyExn VerifyResult :=
  -- store construction and path validation; verify_certificate raises on failure
  let ctx : X509StoreContext := ⟨chainStore root cert, cert⟩
  if O.pathValid ctx = false then .error .certificateChain
  -- key usage must include digital_signature
  else if cert.keyUsageDigitalSignature = false then .ok .keyUsageFail
  -- extended key usage must include code signing
  else if cert.extKeyUsageCodeSigning = false then .ok .extendedKeyUsageFail
  -- optional SAN email check
  else if emailOk cert certEmail = false then .ok .emailFail
  -- raw artifact signature check; InvalidSignature raises on failure
  else if O.keyVerify cert.pubKey artifactSignature artifactContents = false then
    .error .invalidSignature
  else
    match rekorLoop O entries false with
    | .error ex => .error ex
    | .ok false => .ok .noValidEntries
    | .ok true => .ok .ok

/-- A certificate as read by the identity policies in
`sigstore/_verify/policy.py`: the decoded value of each X.509v3 extension
the policies look up (by dotted OID string), and the certificate's SAN
values of the three kinds `Identity` accepts. -/
structure PolicyCert where
  extensionValue : String → Option String
  sanEmails : List String
  sanUris : List String
  sanOtherNames : List String

/-- `VerificationResult` from `sigstore/_verify/models.py`: success, or a
failure carrying a reason. -/
inductive VerificationResult where
  | success
  | failure (reason : String)
  deriving DecidableEq

/-- Python truthiness of a `VerificationResult` (`__bool__`): success is
truthy, failure is falsy. -/
def VerificationResult.toBool : VerificationResult → Bool
  | .success => true
  | .failure _ => false

/-- The dotted OID of the Fulcio OIDC issuer extension. -/
def oidcIssuerOid : String := "1.3.6.1.4.1.57264.1.1"

/-- The dotted OID of the GitHub workflow ref extension. -/
def githubWorkflowRefOid : String := "1.3.6.1.4.1.57264.1.6"

/-- The `verify` body generated by the `_single_x509v3_extension` decorator:
look up the extension by OID (absence is a failure naming the extension),
decode it, and compare against the expected value. -/
def singleExtensionVerify (clsName oid expected : String) (cert : PolicyCert) :
    VerificationResult :=
  match cert.extensionValue oid with
  | none => .failure s!"Certificate does not contain {clsName} ({oid}) extension"
  | some extValue =>
    if extValue != expected then
      .failure s!"Certificate's {clsName} does not match (got {extValue}, expected {expected})"
    else
      .success

/-- The closed set of policies in `sigstore/_verify/policy.py`. -/
inductive Policy where
  | issuer (value : String)
  | gitHubWorkflowRef (value : String)
  | identity (ident : String) (issuerValue : String)
  | anyOf (children : List Policy)
  | allOf (children : List Policy)

mutual

/-- `policy.verify(cert)` for each policy class in
`sigstore/_verify/policy.py`: `Issuer` and `GitHubWorkflowRef` are the
decorator-generated single-extension checks; `Identity` first delegates to
`Issuer` and then matches the identity against the SAN emails, URIs and
Sigstore other-names; `AnyOf` succeeds when some child does, failing with
`"0 of n policies succeeded"` otherwise; `AllOf` rejects an empty child
list outright and otherwise collects every failing child's reason in
order. -/
def Policy.verify (cert : PolicyCert) : Policy → VerificationResult
  | .issuer v => singleExtensionVerify "Issuer" oidcIssuerOid v cert
  | .gitHubWorkflowRef v =>
    singleExtensionVerify "GitHubWorkflowRef" githubWorkflowRefOid v cert
  | .identity ident issuerValue =>
    let issuerVerified := singleExtensionVerify "Issuer" oidcIssuerOid issuerValue cert
    if issuerVerified.toBool = false then issuerVerified
    else
      let verified := cert.sanEmails.contains ident || cert.sanUris.contains ident ||
        cert.sanOtherNames.contains ident
      if verified = false then .failure s!"Certificate's SANs do not match {ident}"
      else .success
  | .anyOf children =>
    if (Policy.verifyList cert children).any VerificationResult.toBool then .success
    else
      let n := children.length
      .failure s!"0 of {n} policies succeeded"
  | .allOf children =>
    if children.length < 1 then .failure "no child policies to verify"
    else
      let results := Policy.verifyList cert children
      let failures := results.filterMap (fun r =>
        match r with
        | .failure reason => some reason
        | .success => none)
      if failures.length > 0 then
        let k := failures.length
        let n := children.length
        let inner := String.intercalate ", " failures
        .failure s!"{k} of {n} policies failed: {inner}"
      else
        .success

/-- `[child.verify(cert) for child in children]`. -/
def Policy.verifyList (cert : PolicyCert) : List Policy → List VerificationResult
  | [] => []
  | p :: ps => Policy.verify cert p :: Policy.verifyList cert ps

end

deriving instance DecidableEq for Except

/-- A fixture certificate passing every certificate-level check. -/
def sampleCert : Certificate :=
  { notValidBefore := 5, keyUsageDigitalSignature := true, extKeyUsageCodeSigning := true,
    rfc822Names := ["signer@example.com"], pubKey := 0 }

/-- A fixture certificate whose `KeyUsage.digital_signature` bit is not set. -/
def badUsageCert : Certificate :=
  { sampleCert with keyUsageDigitalSignature := false }

/-- Fixture oracles: path validation, the artifact signature and every
inclusion proof succeed; canonicalization is keyed on the number of
remaining fields, and the Rekor key accepts exactly the canonical bytes of
an empty body. -/
def oraclesBase : CryptoOracles :=
  { pathValid := fun _ => true
    keyVerify := fun _ _ _ => true
    merkleOk := fun _ => true
    canonicalize := fun d => [d.length]
    b64decode := fun _ => []
    rekorVerify := fun _ d => d == [0] }

/-- Fixture oracles whose path validation always fails. -/
def oraclesPathFail : CryptoOracles :=
  { oraclesBase with pathValid := fun _ => false }

/-- Fixture oracles whose artifact-signature check always fails. -/
def oraclesSigFail : CryptoOracles :=
  { oraclesBase with keyVerify := fun _ _ _ => false }

/-- Fixture oracles whose Rekor key accepts every signature. -/
def oraclesAccept : CryptoOracles :=
  { oraclesBase with rekorVerify := fun _ _ => true }

/-- A fixture Rekor entry whose body carries one field besides
`verification` and `attestation`; under `oraclesBase` its SET check fails. -/
def entryExtraField : RekorEntry :=
  { rawData := [("verification", .null), ("attestation", .null), ("x", .num 1)]
    verification := [("signedEntryTimestamp", .str "sig")] }

/-- A fixture Rekor entry whose body carries exactly the `verification` and
`attestation` fields; under `oraclesBase` its SET check succeeds. -/
def entryMinimal : RekorEntry :=
  { rawData := [("verification", .null), ("attestation", .null)]
    verification := [("signedEntryTimestamp", .str "sig")] }

/-- A fixture Rekor entry whose body has no `attestation` field. -/
def entryNoAttestation : RekorEntry :=
  { rawData := [("verification", .null)]
    verification := [("signedEntryTimestamp", .str "sig")] }

/-- A fixture SCT with a non-empty extensions blob. -/
def sampleSct : FulcioSCT :=
  { sctVersion := 0, timestamp := 0, extensions := [170], signature := [9] }

/-- A fixture SCT with an empty extensions blob. -/
def zeroExtSct : FulcioSCT :=
  { sctVersion := 1, timestamp := 2, extensions := [], signature := [7] }

/-- An ECDSA oracle accepting every signature. -/
def ecdsaAlways : List Nat → List Nat → Bool := fun _ _ => true

/-! Helper lemmas. -/

theorem exceptOk_bind {ε α β : Type} (a : α) (f : α → Except ε β) :
    (Except.ok a >>= f : Except ε β) = f a := rfl

theorem exceptErr_bind {ε α β : Type} (x : ε) (f : α → Except ε β) :
    (Except.error x >>= f : Except ε β) = Except.error x := rfl

theorem dictHas_filter_ne (d : Dict) (k1 k2 : String) (h : k1 ≠ k2) :
    dictHas (d.filter (fun p => !(p.1 == k1))) k2 = dictHas d k2 := by
  induction d with
  | nil => rfl
  | cons p ds ih =>
    by_cases h1 : p.1 == k1
    · have hp : p.1 = k1 := by simpa using h1
      have h2 : (p.1 == k2) = false := by
        rw [hp]
        exact beq_false_of_ne h
      simp [dictHas, List.filter, h1, h2] at ih ⊢
      simpa [dictHas] using ih
    · simp only [Bool.not_eq_true] at h1
      by_cases h2 : p.1 == k2
      · simp [dictHas, List.filter, h1, h2]
      · simp only [Bool.not_eq_true] at h2
        simp [dictHas, List.filter, h1, h2] at ih ⊢
        simpa [dictHas] using ih

theorem withoutVerificationFields_eq (d : Dict) :
    (d.filter (fun p => !(p.1 == "verification"))).filter (fun p => !(p.1 == "attestation"))
      = withoutVerificationFields d := by
  rw [List.filter_filter]
  apply List.filter_congr
  intro a _
  exact Bool.and_comm _ _

theorem rekorLoop_ok_iff (O : CryptoOracles) (es : List RekorEntry) :
    ∀ (v b : Bool), rekorLoop O es v = .ok b ↔
      ((∀ e ∈ es, O.merkleOk e = true → verifySetPure O e = .ok ()) ∧
       b = (v || es.any (fun e => O.merkleOk e))) := by
  induction es with
  | nil =>
    intro v b
    simp [rekorLoop]
    exact eq_comm
  | cons e rest ih =>
    intro v b
    by_cases hm : O.merkleOk e = true
    · cases hset : verifySetPure O e with
      | error se =>
        simp only [rekorLoop, hm, if_true, hset]
        constructor
        · intro h
          exact absurd h (by simp)
        · rintro ⟨hall, -⟩
          have hok := hall e (List.mem_cons_self e rest) hm
          rw [hset] at hok
          exact absurd hok (by simp)
      | ok u =>
        cases u
        simp only [rekorLoop, hm, if_true, hset, ih, List.mem_cons, List.any_cons,
          Bool.true_or, Bool.or_true, Bool.or_assoc]
        constructor
        · rintro ⟨hall, hb⟩
          refine ⟨?_, ?_⟩
          · intro x hx
            rcases hx with hx | hx
            · intro _; rw [hx]; exact hset
            · exact hall x hx
          · simpa using hb
        · rintro ⟨hall, hb⟩
          refine ⟨?_, ?_⟩
          · intro x hx
            exact hall x (Or.inr hx)
          · simpa using hb
    · have hm' : O.merkleOk e = false := by
        simpa using hm
      simp only [rekorLoop, hm', Bool.false_eq_true, if_false, ih, List.mem_cons,
        List.any_cons, Bool.false_or]
      constructor
      · rintro ⟨hall, hb⟩
        refine ⟨?_, ?_⟩
        · intro x hx
          rcases hx with hx | hx
          · intro hcon; rw [hx] at hcon; rw [hcon] at hm'; cases hm'
          · exact hall x hx
        · exact hb
      · rintro ⟨hall, hb⟩
        exact ⟨fun x hx => hall x (Or.inr hx), hb⟩

theorem rekorLoop_error_shape (O : CryptoOracles) (es : List RekorEntry) :
    ∀ (v : Bool) (x : VerifyExn), rekorLoop O es v = .error x →
      ∃ se, x = .setFailure se := by
  induction es with
  | nil =>
    intro v x h
    exact absurd h (by simp [rekorLoop])
  | cons e rest ih =>
    intro v x h
    by_cases hm : O.merkleOk e = true
    · rw [rekorLoop, if_pos hm] at h
      cases hset : verifySetPure O e with
      | error se =>
        rw [hset] at h
        exact ⟨se, (Except.error.injEq _ _).mp h.symm⟩
      | ok u =>
        cases u
        rw [hset] at h
        exact ih true x h
    · have hm' : O.merkleOk e = false := by simpa using hm
      rw [rekorLoop, hm'] at h
      exact ih v x (by simpa using h)

theorem rekorLoop_error_iff (O : CryptoOracles) (es : List RekorEntry) (v : Bool) :
    (∃ x, rekorLoop O es v = .error x) ↔
      ∃ e ∈ es, O.merkleOk e = true ∧ verifySetPure O e ≠ .ok () := by
  by_cases hall : ∀ e ∈ es, O.merkleOk e = true → verifySetPure O e = .ok ()
  · have hok := (rekorLoop_ok_iff O es v (v || es.any (fun e => O.merkleOk e))).mpr ⟨hall, rfl⟩
    constructor
    · rintro ⟨x, hx⟩
      rw [hok] at hx
      exact absurd hx (by simp)
    · rintro ⟨e, he, hme, hse⟩
      exact absurd (hall e he hme) hse
  · push_neg at hall
    constructor
    · intro _
      obtain ⟨e, he, hme, hse⟩ := hall
      exact ⟨e, he, hme, hse⟩
    · intro _
      cases hres : rekorLoop O es v with
      | error x => exact ⟨x, rfl⟩
      | ok b =>
        have := (rekorLoop_ok_iff O es v b).mp hres
        obtain ⟨e, he, hme, hse⟩ := hall
        exact absurd (this.1 e he hme) hse

theorem packDigitallySigned_spec (sct : FulcioSCT) (certDer : List Nat)
    (hv : sct.sctVersion < 256) (ht : sct.timestamp < 2 ^ 64)
    (he : sct.extensions.length ≤ 32767) (hd : certDer.length ≤ 16777215) :
    packDigitallySigned sct certDer = .ok (amendedDigitallySigned sct certDer) := by
  have h32 : certDer.length < 256 ^ 4 := by
    have : (256 : Nat) ^ 4 = 4294967296 := by norm_num
    omega
  have hb4 : bytesBE 4 certDer.length =
      [certDer.length / 256 ^ 3 % 256, certDer.length / 256 ^ 2 % 256,
       certDer.length / 256 ^ 1 % 256, certDer.length / 256 ^ 0 % 256] := rfl
  have hu : certDer.length / 256 ^ 3 % 256 = 0 := by
    have h0 : certDer.length / 256 ^ 3 = 0 := by
      apply Nat.div_eq_of_lt
      norm_num
      omega
    rw [h0]
  have hlt1 : certDer.length / 256 ^ 2 % 256 < 256 ^ 1 := by
    have := Nat.mod_lt (certDer.length / 256 ^ 2) (show 0 < 256 by norm_num)
    simpa using this
  have hlt2 : certDer.length / 256 ^ 1 % 256 < 256 ^ 1 := by
    have := Nat.mod_lt (certDer.length / 256 ^ 1) (show 0 < 256 by norm_num)
    simpa using this
  have hlt3 : certDer.length / 256 ^ 0 % 256 < 256 ^ 1 := by
    have := Nat.mod_lt (certDer.length / 256 ^ 0) (show 0 < 256 by norm_num)
    simpa using this
  have hv' : sct.sctVersion < 256 ^ 1 := by simpa using hv
  have ht' : sct.timestamp < 256 ^ 8 := by
    have : (256 : Nat) ^ 8 = 2 ^ 64 := by norm_num
    omega
  unfold packDigitallySigned
  rw [structPackU, if_pos h32, exceptOk_bind]
  simp only [hb4, List.getD_cons_zero, List.getD_cons_succ, hu, ne_eq,
    not_true_eq_false, if_neg, ite_false]
  rw [structPackU, if_pos hv', exceptOk_bind]
  rw [structPackU, if_pos (show (0:Nat) < 256 ^ 1 by norm_num), exceptOk_bind]
  rw [structPackU, if_pos ht', exceptOk_bind]
  rw [structPackH, if_pos (show (0:Nat) ≤ 32767 by norm_num), exceptOk_bind]
  rw [structPackU, if_pos hlt1, exceptOk_bind]
  rw [structPackU, if_pos hlt2, exceptOk_bind]
  rw [structPackU, if_pos hlt3, exceptOk_bind]
  rw [structPackH, if_pos he, exceptOk_bind]
  have hbe1 : ∀ n : Nat, bytesBE 1 n = [n % 256] := by
    intro n
    show [n / 256 ^ 0 % 256] = [n % 256]
    norm_num
  have hmm : ∀ x : Nat, x % 256 % 256 = x % 256 := fun x => Nat.mod_mod_of_dvd x dvd_rfl
  have hbe3 : bytesBE 3 certDer.length =
      [certDer.length / 256 ^ 2 % 256, certDer.length / 256 ^ 1 % 256,
       certDer.length / 256 ^ 0 % 256] := rfl
  unfold amendedDigitallySigned
  rw [hbe3]
  simp only [hbe1, hmm]
  simp only [List.append_assoc, List.cons_append, List.singleton_append]
  rfl

theorem verify_entries_phase (O : CryptoOracles) (cert root : Certificate)
    (a s : List Nat) (em : Option String) (es : List RekorEntry)
    (hpath : O.pathValid ⟨chainStore root cert, cert⟩ = true)
    (hku : cert.keyUsageDigitalSignature = true)
    (heku : cert.extKeyUsageCodeSigning = true)
    (hem : emailOk cert em = true)
    (hsig : O.keyVerify cert.pubKey s a = true) :
    verify O cert root a s em es =
      match rekorLoop O es false with
      | .error ex => .error ex
      | .ok false => .ok .noValidEntries
      | .ok true => .ok .ok := by
  unfold verify
  simp [hpath, hku, heku, hem, hsig]

theorem storeGet_append (st : Store) (d : Dict) (r : Nat) (h : r < st.dicts.length) :
    Store.get ⟨st.dicts ++ [d]⟩ r = st.get r := by
  show (st.dicts ++ [d]).getD r [] = st.dicts.getD r []
  exact List.getD_append _ _ _ _ h

theorem storeGet_set_ne (st : Store) (i r : Nat) (d : Dict) (h : i ≠ r) :
    (st.set i d).get r = st.get r := by
  show (st.dicts.set i d).getD r [] = st.dicts.getD r []
  rw [List.getD_eq_getElem?_getD, List.getD_eq_getElem?_getD, List.getElem?_set_ne h]

theorem bytesBE_length (w n : Nat) : (bytesBE w n).length = w := by
  simp [bytesBE]

theorem packDigitallySigned_oversized (sct : FulcioSCT) (certDer : List Nat)
    (h1 : 16777215 < certDer.length) (h2 : certDer.length < 4294967296) :
    packDigitallySigned sct certDer = .error (.invalidSct (oversizedMsg certDer.length)) := by
  have h32 : certDer.length < 256 ^ 4 := by
    have : (256 : Nat) ^ 4 = 4294967296 := by norm_num
    omega
  have hb4 : bytesBE 4 certDer.length =
      [certDer.length / 256 ^ 3 % 256, certDer.length / 256 ^ 2 % 256,
       certDer.length / 256 ^ 1 % 256, certDer.length / 256 ^ 0 % 256] := rfl
  have hdiv_lt : certDer.length / 256 ^ 3 < 256 := by
    rw [Nat.div_lt_iff_lt_mul (by norm_num : 0 < 256 ^ 3)]
    have : (256 : Nat) * 256 ^ 3 = 4294967296 := by norm_num
    omega
  have hdiv_pos : 0 < certDer.length / 256 ^ 3 := by
    have h163 : (256 : Nat) ^ 3 = 16777216 := by norm_num
    have h1 : 1 ≤ certDer.length / 256 ^ 3 :=
      (Nat.one_le_div_iff (by norm_num)).mpr (by omega)
    omega
  have hu : certDer.length / 256 ^ 3 % 256 ≠ 0 := by
    rw [Nat.mod_eq_of_lt hdiv_lt]
    omega
  unfold packDigitallySigned
  rw [structPackU, if_pos h32, exceptOk_bind]
  simp only [hb4, List.getD_cons_zero, List.getD_cons_succ, hu, ne_eq,
    not_false_eq_true, if_true, ite_true]
  rfl

theorem packDigitallySigned_structError (sct : FulcioSCT) (certDer : List Nat)
    (h : 4294967296 ≤ certDer.length) :
    packDigitallySigned sct certDer = .error .structError := by
  have h32 : ¬ (certDer.length < 256 ^ 4) := by
    have : (256 : Nat) ^ 4 = 4294967296 := by norm_num
    omega
  unfold packDigitallySigned
  rw [structPackU, if_neg h32, exceptErr_bind]

theorem verifySct_error_prop (ecdsa : List Nat → List Nat → Bool) (sct : FulcioSCT)
    (certDer : List Nat) (x : SctExn) (h : packDigitallySigned sct certDer = .error x) :
    verifySct ecdsa sct certDer = .error x := by
  unfold verifySct
  rw [h, exceptErr_bind]

/-! Claim C1. -/

/-- C1 counterexample: with every inclusion proof passing, an entry whose
SET check fails aborts the whole verification with an escaping
`InvalidSetError` even though the next entry would verify fully, so the
overall result is not success — contradicting the claim that an entry
failing SET verification is skipped provided another entry succeeds. -/
theorem c1_set_failure_aborts_despite_valid_entry :
    verify oraclesBase sampleCert sampleCert [] [] none [entryExtraField, entryMinimal] =
        .error (.setFailure .invalidSet) ∧
    verify oraclesBase sampleCert sampleCert [] [] none [entryExtraField, entryMinimal] ≠
        .ok .ok := by
  constructor
  · rfl
  · decide

/-- C1 (amended): once the certificate-level checks and the artifact
signature check pass, the per-entry loop behaves as follows: it returns
success exactly when some entry passes Merkle inclusion and every
inclusion-passing entry also passes SET verification; it reports the
no-valid-entries failure exactly when every entry fails inclusion (so an
entry failing only inclusion is indeed skipped); and an uncaught SET error
escapes exactly when some inclusion-passing entry fails SET
verification — rather than that entry being skipped. -/
theorem c1_entry_loop_outcomes (O : CryptoOracles) (cert root : Certificate)
    (a s : List Nat) (em : Option String) (es : List RekorEntry)
    (hpath : O.pathValid ⟨chainStore root cert, cert⟩ = true)
    (hku : cert.keyUsageDigitalSignature = true)
    (heku : cert.extKeyUsageCodeSigning = true)
    (hem : emailOk cert em = true)
    (hsig : O.keyVerify cert.pubKey s a = true) :
    (verify O cert root a s em es = .ok .ok ↔
      ((∀ e ∈ es, O.merkleOk e = true → verifySetPure O e = .ok ()) ∧
        es.any (fun e => O.merkleOk e) = true)) ∧
    (verify O cert root a s em es = .ok .noValidEntries ↔
      ∀ e ∈ es, O.merkleOk e = false) ∧
    ((∃ se, verify O cert root a s em es = .error (.setFailure se)) ↔
      ∃ e ∈ es, O.merkleOk e = true ∧ verifySetPure O e ≠ .ok ()) := by
  rw [verify_entries_phase O cert root a s em es hpath hku heku hem hsig]
  refine ⟨?_, ?_, ?_⟩
  · cases hres : rekorLoop O es false with
    | error ex =>
      simp only
      constructor
      · intro h; exact absurd h (by simp)
      · rintro ⟨hall, hany⟩
        have := (rekorLoop_ok_iff O es false (false || es.any (fun e => O.merkleOk e))).mpr
          ⟨hall, rfl⟩
        rw [hres] at this
        exact absurd this (by simp)
    | ok b =>
      have hb := (rekorLoop_ok_iff O es false b).mp hres
      cases b with
      | true =>
        simp only
        constructor
        · intro _
          exact ⟨hb.1, by simpa using hb.2.symm⟩
        · intro _; trivial
      | false =>
        simp only
        constructor
        · intro h; exact absurd h (by simp)
        · rintro ⟨hall, hany⟩
          rw [hany] at hb
          simp at hb
  · cases hres : rekorLoop O es false with
    | error ex =>
      simp only
      constructor
      · intro h; exact absurd h (by simp)
      · intro hall
        have : (∃ x, rekorLoop O es false = .error x) := ⟨ex, hres⟩
        rw [rekorLoop_error_iff] at this
        obtain ⟨e, he, hme, -⟩ := this
        rw [hall e he] at hme
        exact absurd hme (by simp)
    | ok b =>
      have hb := (rekorLoop_ok_iff O es false b).mp hres
      cases b with
      | true =>
        simp only
        constructor
        · intro h; exact absurd h (by simp)
        · intro hall
          have hany : es.any (fun e => O.merkleOk e) = false := by
            simp only [List.any_eq_false]
            intro e he
            simp [hall e he]
          rw [hany] at hb
          simp at hb
      | false =>
        simp only
        constructor
        · intro _
          intro e he
          by_contra hcon
          have hme : O.merkleOk e = true := by
            cases hmm : O.merkleOk e with
            | true => rfl
            | false => exact absurd hmm hcon
          have : es.any (fun e => O.merkleOk e) = true :=
            List.any_eq_true.mpr ⟨e, he, hme⟩
          rw [this] at hb
          simp at hb
        · intro _; trivial
  · constructor
    · rintro ⟨se, hse⟩
      have hloop : ∃ x, rekorLoop O es false = .error x := by
        cases hres : rekorLoop O es false with
        | error ex => exact ⟨ex, rfl⟩
        | ok b =>
          rw [hres] at hse
          cases b <;> exact absurd hse (by simp)
      exact (rekorLoop_error_iff O es false).mp hloop
    · intro hex
      have hloop := (rekorLoop_error_iff O es false).mpr hex
      obtain ⟨x, hx⟩ := hloop
      obtain ⟨se, hse⟩ := rekorLoop_error_shape O es false x hx
      refine ⟨se, ?_⟩
      rw [hx, hse]

/-- C1 witness: the amended theorem applied to concrete oracles, a
certificate passing every check and a single entry passing both per-entry
checks. -/
theorem c1_entry_loop_outcomes_witness :
    verify oraclesBase sampleCert sampleCert [] [] none [entryMinimal] = .ok .ok :=
  (c1_entry_loop_outcomes oraclesBase sampleCert sampleCert [] [] none [entryMinimal]
    rfl rfl rfl rfl rfl).1.mpr (by decide)

/-! Claim C2. -/

/-- C2 counterexample: for an SCT with the non-empty extensions blob
`[170]`, the packed payload is not the claimed layout with the blob
appended after the 2-byte extensions length — the blob never appears in
the output. -/
theorem c2_extensions_blob_not_appended :
    packDigitallySigned sampleSct [1, 2, 3] =
        .ok (amendedDigitallySigned sampleSct [1, 2, 3]) ∧
    packDigitallySigned sampleSct [1, 2, 3] ≠
        .ok (claimDigitallySigned sampleSct [1, 2, 3]) := by
  constructor
  · decide
  · decide

/-- C2 (amended): for every SCT with in-range fields (version below 256,
timestamp below 2^64, extensions blob of at most 32767 bytes) and every
DER encoding of at most 16,777,215 bytes, the assembled digitally-signed
payload is, big-endian without padding: 1 byte SCT version, 1 zero byte
(signature type), 8 bytes timestamp, 2 zero bytes (entry type), 3 bytes
DER length, the DER bytes, and a 2-byte extensions length that is always
present — and nothing after it: the extensions blob itself is never
appended, whether or not it is empty. -/
theorem c2_digitally_signed_layout (sct : FulcioSCT) (certDer : List Nat)
    (hv : sct.sctVersion < 256) (ht : sct.timestamp < 2 ^ 64)
    (he : sct.extensions.length ≤ 32767) (hd : certDer.length ≤ 16777215) :
    packDigitallySigned sct certDer =
      .ok (bytesBE 1 sct.sctVersion ++ bytesBE 1 0 ++ bytesBE 8 sct.timestamp ++
        bytesBE 2 0 ++ bytesBE 3 certDer.length ++ certDer ++
        bytesBE 2 sct.extensions.length) :=
  packDigitallySigned_spec sct certDer hv ht he hd

/-- C2 witness: the amended layout theorem applied to a concrete SCT and
DER encoding. -/
theorem c2_digitally_signed_layout_witness :
    packDigitallySigned zeroExtSct [1, 2, 3] =
      .ok (bytesBE 1 zeroExtSct.sctVersion ++ bytesBE 1 0 ++
        bytesBE 8 zeroExtSct.timestamp ++ bytesBE 2 0 ++ bytesBE 3 3 ++ [1, 2, 3] ++
        bytesBE 2 zeroExtSct.extensions.length) :=
  c2_digitally_signed_layout zeroExtSct [1, 2, 3] (by decide) (by decide) (by decide)
    (by decide)

/-! Claim C3. -/

/-- C3 counterexample: on three concrete inputs, a failed chain
validation, a failed artifact-signature check, and a failed SET check each
terminate `verify` with an escaping exception (an `Except.error`), not
with a returned failure result — contradicting the claim that no check in
the core lets an exception escape. -/
theorem c3_exceptions_escape :
    verify oraclesPathFail sampleCert sampleCert [] [] none [] =
        .error .certificateChain ∧
    verify oraclesSigFail sampleCert sampleCert [] [] none [] =
        .error .invalidSignature ∧
    verify oraclesBase sampleCert sampleCert [] [] none [entryExtraField] =
        .error (.setFailure .invalidSet) := by
  refine ⟨rfl, rfl, rfl⟩

/-- C3 (amended): chain-validation failure, artifact-signature failure and
any SET-verification failure escape `verify` as uncaught exceptions
(`Except.error`), while the key-usage, extended-key-usage, email and
no-valid-entries failures are returned as ordinary results
(`Except.ok`). -/
theorem c3_failure_modes (O : CryptoOracles) (cert root : Certificate)
    (a s : List Nat) (em : Option String) (es : List RekorEntry) (ex : VerifyExn) :
    (O.pathValid ⟨chainStore root cert, cert⟩ = false →
      verify O cert root a s em es = .error .certificateChain) ∧
    (O.pathValid ⟨chainStore root cert, cert⟩ = true →
      cert.keyUsageDigitalSignature = false →
      verify O cert root a s em es = .ok .keyUsageFail) ∧
    (O.pathValid ⟨chainStore root cert, cert⟩ = true →
      cert.keyUsageDigitalSignature = true →
      cert.extKeyUsageCodeSigning = false →
      verify O cert root a s em es = .ok .extendedKeyUsageFail) ∧
    (O.pathValid ⟨chainStore root cert, cert⟩ = true →
      cert.keyUsageDigitalSignature = true →
      cert.extKeyUsageCodeSigning = true →
      emailOk cert em = false →
      verify O cert root a s em es = .ok .emailFail) ∧
    (O.pathValid ⟨chainStore root cert, cert⟩ = true →
      cert.keyUsageDigitalSignature = true →
      cert.extKeyUsageCodeSigning = true →
      emailOk cert em = true →
      O.keyVerify cert.pubKey s a = false →
      verify O cert root a s em es = .error .invalidSignature) ∧
    (O.pathValid ⟨chainStore root cert, cert⟩ = true →
      cert.keyUsageDigitalSignature = true →
      cert.extKeyUsageCodeSigning = true →
      emailOk cert em = true →
      O.keyVerify cert.pubKey s a = true →
      rekorLoop O es false = .error ex →
      verify O cert root a s em es = .error ex) := by
  refine ⟨fun h1 => ?_, fun h1 h2 => ?_, fun h1 h2 h3 => ?_, fun h1 h2 h3 h4 => ?_,
    fun h1 h2 h3 h4 h5 => ?_, fun h1 h2 h3 h4 h5 h6 => ?_⟩
  · unfold verify; simp [h1]
  · unfold verify; simp [h1, h2]
  · unfold verify; simp [h1, h2, h3]
  · unfold verify; simp [h1, h2, h3, h4]
  · unfold verify; simp [h1, h2, h3, h4, h5]
  · unfold verify; simp [h1, h2, h3, h4, h5, h6]

/-- C3 witness: the amended theorem applied at concrete inputs, showing a
returned key-usage failure next to an escaping chain-validation
exception. -/
theorem c3_failure_modes_witness :
    verify oraclesBase badUsageCert sampleCert [] [] none [entryMinimal] =
        .ok .keyUsageFail ∧
    verify oraclesPathFail sampleCert sampleCert [] [] none [entryMinimal] =
        .error .certificateChain :=
  ⟨(c3_failure_modes oraclesBase badUsageCert sampleCert [] [] none [entryMinimal]
      .certificateChain).2.1 rfl rfl,
   (c3_failure_modes oraclesPathFail sampleCert sampleCert [] [] none [entryMinimal]
      .certificateChain).1 rfl⟩

/-! Claim C4. -/

/-- C4 counterexample: on an entry whose body lacks the `attestation`
field, `verify_set` does not skip the removal and proceed — it raises an
uncaught `KeyError`, even with a Rekor key that accepts every signature,
so the claimed remove-when-present behavior fails. -/
theorem c4_missing_attestation_key_error :
    verifySetPure oraclesAccept entryNoAttestation = .error .keyError ∧
    verifySetPure oraclesAccept entryNoAttestation ≠ .ok () := by
  constructor
  · rfl
  · decide

/-- C4 (amended): for every log entry body that contains both the
`verification` and the `attestation` fields (and a string
`signedEntryTimestamp`), SET verification removes exactly those two
fields, canonicalizes the remaining body, and verifies the base64-decoded
signed entry timestamp over exactly those canonical bytes; a body missing
either field instead raises an uncaught `KeyError`. -/
theorem c4_set_payload_excludes_fields (O : CryptoOracles) (e : RekorEntry) (s : String)
    (h1 : dictHas e.rawData "verification" = true)
    (h2 : dictHas e.rawData "attestation" = true)
    (h3 : dictGet e.verification "signedEntryTimestamp" = some (.str s)) :
    verifySetPure O e =
      if O.rekorVerify (O.b64decode s) (O.canonicalize (withoutVerificationFields e.rawData))
      then .ok () else .error .invalidSet := by
  have hver : "verification" ≠ "attestation" := by decide
  have hd1 : dictDel e.rawData "verification" =
      some (e.rawData.filter (fun p => !(p.1 == "verification"))) := by
    simp [dictDel, h1]
  have hhas2 : dictHas (e.rawData.filter (fun p => !(p.1 == "verification"))) "attestation"
      = true := by
    rw [dictHas_filter_ne _ _ _ hver]
    exact h2
  have hd2 : dictDel (e.rawData.filter (fun p => !(p.1 == "verification"))) "attestation" =
      some (withoutVerificationFields e.rawData) := by
    simp only [dictDel, hhas2, if_true]
    rw [withoutVerificationFields_eq]
  unfold verifySetPure verifySetStore Store.alloc
  simp only [Store.get, Store.set, List.getD_cons_zero, List.getD_cons_succ,
    List.length_singleton, List.singleton_append, List.set_cons_succ, List.set_cons_zero,
    List.set_nil, hd1, hd2, h3]
  split <;> rfl

/-- C4 witness: the amended theorem applied to an entry carrying both
fields, under a Rekor key oracle that accepts the canonical bytes. -/
theorem c4_set_payload_excludes_fields_witness :
    verifySetPure oraclesBase entryMinimal = .ok () := by
  rw [c4_set_payload_excludes_fields oraclesBase entryMinimal "sig" rfl rfl rfl]
  decide

/-! Claim C5. -/

/-- C5: whenever the digitally-signed payload assembles to `ds`, SCT
verification succeeds exactly when the ECDSA oracle accepts the whole
`sct.signature` (unmodified — no 4-byte prefix is stripped, whatever the
source comment says) over `ds`; any rejection by the oracle (which models
both a wrong signature and a malformed signature encoding, since the
`cryptography` library raises the same `InvalidSignature` for both)
surfaces as the single bare `InvalidSctError`. -/
theorem c5_sct_signature_unmodified (ecdsa : List Nat → List Nat → Bool) (sct : FulcioSCT) (certDer ds : List Nat)
    (h : packDigitallySigned sct certDer = .ok ds) :
    (verifySct ecdsa sct certDer = .ok () ↔ ecdsa sct.signature ds = true) ∧
    (ecdsa sct.signature ds = false →
      verifySct ecdsa sct certDer = .error (.invalidSct "")) := by
  unfold verifySct
  rw [h, exceptOk_bind]
  constructor
  · by_cases hv : ecdsa sct.signature ds = true
    · simp only [hv, if_true]
      exact iff_of_true rfl trivial
    · simp only [Bool.not_eq_true] at hv
      simp only [hv, Bool.false_eq_true, if_false]
      constructor
      · intro h
        exact absurd h (by simp [throw, throwThe, MonadExceptOf.throw])
      · intro h
        exact absurd h (by simp)
  · intro hv
    simp only [hv, Bool.false_eq_true, if_false]
    rfl

/-- C5 witness: the theorem applied to a concrete SCT, DER encoding and
accepting ECDSA oracle. -/
theorem c5_sct_signature_unmodified_witness :
    verifySct ecdsaAlways zeroExtSct [1, 2, 3] = .ok () :=
  ((c5_sct_signature_unmodified ecdsaAlways zeroExtSct [1, 2, 3]
      (amendedDigitallySigned zeroExtSct [1, 2, 3]) (by decide)).1).mpr rfl

/-! Claim C6. -/

/-- C6: the trust store built by `verify` contains exactly the trusted
root, its validation time is the certificate's own not-valid-before
instant (no wall clock is consulted anywhere in `verify`), and path
validation is decided on precisely that store: when the path-validation
oracle rejects that context, `verify` fails with the chain error. -/
theorem c6_trust_store_and_reference_time (O : CryptoOracles) (cert root : Certificate)
    (a s : List Nat) (em : Option String) (es : List RekorEntry) :
    (chainStore root cert).certs = [root] ∧
    (chainStore root cert).time = some cert.notValidBefore ∧
    (O.pathValid ⟨chainStore root cert, cert⟩ = false →
      verify O cert root a s em es = .error .certificateChain) := by
  refine ⟨rfl, rfl, fun h => ?_⟩
  unfold verify
  simp [h]

/-- C6 witness: the theorem applied at concrete inputs; the hypothesis of
its last conjunct is discharged with the always-failing path oracle. -/
theorem c6_trust_store_and_reference_time_witness :
    (chainStore sampleCert badUsageCert).certs = [sampleCert] ∧
    (chainStore sampleCert badUsageCert).time = some badUsageCert.notValidBefore ∧
    verify oraclesPathFail badUsageCert sampleCert [] [] none [entryExtraField] =
        .error .certificateChain :=
  ⟨(c6_trust_store_and_reference_time oraclesPathFail badUsageCert sampleCert [] [] none
      [entryExtraField]).1,
   (c6_trust_store_and_reference_time oraclesPathFail badUsageCert sampleCert [] [] none
      [entryExtraField]).2.1,
   (c6_trust_store_and_reference_time oraclesPathFail badUsageCert sampleCert [] [] none
      [entryExtraField]).2.2 rfl⟩


/-! Claim C7. -/

/-- C7 counterexample: a DER encoding of 4,294,967,296 bytes is longer
than 16,777,215 bytes, yet payload assembly fails with the `struct.error`
from `struct.pack("!I", ...)` rather than with the oversized-certificate
`InvalidSctError` the claim names. -/
theorem c7_struct_error_beyond_32_bits :
    packDigitallySigned sampleSct (List.replicate 4294967296 0) = .error .structError ∧
    packDigitallySigned sampleSct (List.replicate 4294967296 0) ≠
        .error (.invalidSct (oversizedMsg 4294967296)) := by
  have hlen : (List.replicate 4294967296 (0 : Nat)).length = 4294967296 :=
    List.length_replicate 4294967296 0
  have h := packDigitallySigned_structError sampleSct (List.replicate 4294967296 0)
    (by rw [hlen])
  refine ⟨h, ?_⟩
  rw [h]
  intro hc
  exact SctExn.noConfusion ((Except.error.injEq _ _).mp hc)

/-- C7 (amended): a DER encoding longer than 16,777,215 bytes but below
2^32 bytes makes SCT verification fail with the oversized-certificate
`InvalidSctError` before the signature oracle is ever consulted (the
result is the same for every oracle); from 2^32 bytes on, the failure is a
`struct.error` instead, still before any signature verification; and for
every DER encoding of at most 16,777,215 bytes (with in-range SCT fields)
the check passes and the DER length occupies exactly the 3 bytes
`bytesBE 3` holds in the assembled payload. -/
theorem c7_oversize_check (ecdsa : List Nat → List Nat → Bool) (sct : FulcioSCT)
    (certDer : List Nat) :
    (16777215 < certDer.length → certDer.length < 4294967296 →
      verifySct ecdsa sct certDer = .error (.invalidSct (oversizedMsg certDer.length))) ∧
    (4294967296 ≤ certDer.length →
      verifySct ecdsa sct certDer = .error .structError) ∧
    (certDer.length ≤ 16777215 → sct.sctVersion < 256 → sct.timestamp < 2 ^ 64 →
      sct.extensions.length ≤ 32767 →
      packDigitallySigned sct certDer = .ok (amendedDigitallySigned sct certDer) ∧
      (bytesBE 3 certDer.length).length = 3) := by
  refine ⟨fun h1 h2 => ?_, fun h => ?_, fun h1 h2 h3 h4 => ?_⟩
  · exact verifySct_error_prop ecdsa sct certDer _
      (packDigitallySigned_oversized sct certDer h1 h2)
  · exact verifySct_error_prop ecdsa sct certDer _
      (packDigitallySigned_structError sct certDer h)
  · exact ⟨packDigitallySigned_spec sct certDer h2 h3 h4 h1, bytesBE_length 3 _⟩

/-- C7 witness: the amended theorem applied to a 16,777,216-byte DER
encoding (oversized error, independent of the accepting oracle) and to a
small one (assembly succeeds). -/
theorem c7_oversize_check_witness :
    verifySct ecdsaAlways sampleSct (List.replicate 16777216 0) =
        .error (.invalidSct (oversizedMsg 16777216)) ∧
    packDigitallySigned sampleSct [5] = .ok (amendedDigitallySigned sampleSct [5]) := by
  have hlen : (List.replicate 16777216 (0 : Nat)).length = 16777216 :=
    List.length_replicate 16777216 0
  constructor
  · have h := (c7_oversize_check ecdsaAlways sampleSct (List.replicate 16777216 0)).1
      (by rw [hlen]; norm_num) (by rw [hlen]; norm_num)
    rw [hlen] at h
    exact h
  · exact ((c7_oversize_check ecdsaAlways sampleSct [5]).2.2 (by decide) (by decide)
      (by decide) (by decide)).1

/-! Claim C8. -/

/-- C8: for every certificate, `AnyOf []` fails with exactly the reason
"0 of 0 policies succeeded" and `AllOf []` fails with exactly the reason
"no child policies to verify" — neither empty composite is ever vacuously
true. -/
theorem c8_empty_composites_fail (cert : PolicyCert) :
    Policy.verify cert (.anyOf []) = .failure "0 of 0 policies succeeded" ∧
    Policy.verify cert (.allOf []) = .failure "no child policies to verify" :=
  ⟨rfl, rfl⟩

/-! Claim C9. -/

/-- C9 counterexample: a certificate whose digital-signature key-usage bit
is unset but which also fails path validation makes `verify` fail with the
escaping path-validation error, not with the key-usage error — because
path validation runs first — contradicting the claim that such a
certificate never yields a path-validation error. -/
theorem c9_path_error_preempts_key_usage :
    verify oraclesPathFail badUsageCert sampleCert [] [] none [] =
        .error .certificateChain ∧
    verify oraclesPathFail badUsageCert sampleCert [] [] none [] ≠
        .ok .keyUsageFail := by
  constructor
  · rfl
  · decide

/-- C9 (amended): for every certificate that passes path validation, a
clear digital-signature key-usage bit yields exactly the key-usage
failure, and (with that bit set) a missing code-signing extended key usage
yields exactly the extended-key-usage failure — never the path-validation
error; a certificate failing path validation, however, yields the
path-validation error regardless of its usage bits. -/
theorem c9_usage_checks_after_path (O : CryptoOracles) (cert root : Certificate)
    (a s : List Nat) (em : Option String) (es : List RekorEntry) :
    (O.pathValid ⟨chainStore root cert, cert⟩ = true →
      cert.keyUsageDigitalSignature = false →
      verify O cert root a s em es = .ok .keyUsageFail) ∧
    (O.pathValid ⟨chainStore root cert, cert⟩ = true →
      cert.keyUsageDigitalSignature = true →
      cert.extKeyUsageCodeSigning = false →
      verify O cert root a s em es = .ok .extendedKeyUsageFail) ∧
    (O.pathValid ⟨chainStore root cert, cert⟩ = false →
      verify O cert root a s em es = .error .certificateChain) := by
  refine ⟨fun h1 h2 => ?_, fun h1 h2 h3 => ?_, fun h1 => ?_⟩
  · unfold verify; simp [h1, h2]
  · unfold verify; simp [h1, h2, h3]
  · unfold verify; simp [h1]

/-- C9 witness: the amended theorem applied to concrete certificates that
pass path validation and fail one usage check each. -/
theorem c9_usage_checks_after_path_witness :
    verify oraclesBase badUsageCert sampleCert [] [] none [] = .ok .keyUsageFail ∧
    verify oraclesBase
        { sampleCert with extKeyUsageCodeSigning := false } sampleCert [] [] none [] =
      .ok .extendedKeyUsageFail :=
  ⟨(c9_usage_checks_after_path oraclesBase badUsageCert sampleCert [] [] none []).1
      rfl rfl,
   (c9_usage_checks_after_path oraclesBase
      { sampleCert with extKeyUsageCodeSigning := false } sampleCert [] [] none []).2.1
      rfl rfl rfl⟩

/-! Claim C10. -/

/-- C10: SET verification never mutates the log entry body it is given:
whatever the outcome, the dict object behind the caller's reference is
unchanged after the call (including its `verification` and `attestation`
fields), because the field removal operates on a freshly allocated
copy. -/
theorem c10_verify_set_frame (O : CryptoOracles) (st : Store) (r : Nat) (v : Dict)
    (h : r < st.dicts.length) :
    ((verifySetStore O st r v).2).get r = st.get r := by
  have hne : st.dicts.length ≠ r := fun he => absurd he.symm (Nat.ne_of_lt h)
  unfold verifySetStore Store.alloc
  simp only
  set st1 : Store := ⟨st.dicts ++ [st.get r]⟩ with hst1
  have h1 : st1.get r = st.get r := storeGet_append st _ r h
  cases hdel : dictDel (st1.get st.dicts.length) "verification" with
  | none => simpa using h1
  | some d =>
    simp only
    have h2 : (st1.set st.dicts.length d).get r = st.get r := by
      rw [storeGet_set_ne _ _ _ _ hne, h1]
    cases hdel2 : dictDel ((st1.set st.dicts.length d).get st.dicts.length) "attestation" with
    | none => simpa using h2
    | some d2 =>
      simp only
      have h3 : ((st1.set st.dicts.length d).set st.dicts.length d2).get r = st.get r := by
        rw [storeGet_set_ne _ _ _ _ hne, h2]
      cases hget : dictGet v "signedEntryTimestamp" with
      | none => simpa using h3
      | some jv =>
        cases jv <;> simp only <;> try simpa using h3
        case str s =>
          by_cases hv : O.rekorVerify (O.b64decode s)
              (O.canonicalize (((st1.set st.dicts.length d).set st.dicts.length d2).get
                st.dicts.length)) = true
          · simp only [hv, if_true]; simpa using h3
          · simp only [Bool.not_eq_true] at hv
            simp only [hv, Bool.false_eq_true, if_false]
            simpa using h3

/-- C10 witness: the frame theorem applied to a one-object heap holding
the body of the minimal fixture entry. -/
theorem c10_verify_set_frame_witness :
    ((verifySetStore oraclesBase ⟨[entryMinimal.rawData]⟩ 0 entryMinimal.verification).2).get 0
      = Store.get ⟨[entryMinimal.rawData]⟩ 0 :=
  c10_verify_set_frame oraclesBase ⟨[entryMinimal.rawData]⟩ 0 entryMinimal.verification
    (by decide)
